import Mathlib

/-!
Verification development for the `@profullstack/websocket-client` connection
lifecycle engine (`src/index.js`, class `WebSocketClient`).

The engine is single-threaded and callback driven.  We embed it shallowly:
every method of the class becomes a pure function from the mutable instance
state to a new state together with the list of lifecycle events it emits
(`this.emit(...)`) and the list of transport/timer actions it performs
(`adapter.createWebSocket`, `adapter.closeWebSocket`, `adapter.sendMessage`,
`setTimeout`, `clearTimeout`).  JavaScript numbers that hold backoff
intervals are modelled as rationals (`ℚ`); the computations involved are
exact (`*`, `Math.min`), so no floating-point behaviour is lost on the
configurations considered here.

The host builtins `JSON.parse` and `JSON.stringify` and the possibility of
`adapter.sendMessage` throwing are external collaborators, not code of this
repository; they are modelled as parameters of an `Env` record:
`parse : String → Option JValue` (`none` = `JSON.parse` threw),
`strfy : JValue → String`, and `sendFails : Wire → Bool` (whether the
transport-level send throws on that payload).
-/

namespace WSC

/-- A structured (non-binary, non-string) JavaScript value, as far as the
engine inspects it: the engine only hands such values to `JSON.stringify`
or receives them back from `JSON.parse`, so they stay abstract. -/
inductive JValue where
  | jnull
  | jbool (b : Bool)
  | jnum (q : ℚ)
  | jstr (s : String)
  deriving DecidableEq, Repr

/-- A payload handed to `send(data)`: a string, a structured object
(`typeof data === 'object'`, not `ArrayBuffer`, not `Blob`), an
`ArrayBuffer`, or a `Blob` (binary contents abstracted as byte lists). -/
inductive SendData where
  | str (s : String)
  | obj (v : JValue)
  | arrayBuffer (b : List ℕ)
  | blob (b : List ℕ)
  deriving DecidableEq, Repr

/-- What crosses the transport boundary in either direction: text or
binary. -/
inductive Wire where
  | text (s : String)
  | binary (b : List ℕ)
  deriving DecidableEq, Repr

/-- A close event as delivered by the adapter (`{code, reason, wasClean}`). -/
structure CloseEvent where
  code : ℕ
  reason : String
  wasClean : Bool
  deriving DecidableEq, Repr

/-- The value carried by a `message` lifecycle event: the result of the
best-effort `JSON.parse` step in `_handleMessage`. -/
inductive MsgData where
  | parsed (v : JValue)
  | text (s : String)
  | binary (b : List ℕ)
  deriving DecidableEq, Repr

/-- Lifecycle events the engine emits (`this.emit(...)`).  `openEv` carries
the raw open event (abstracted to a tag), `messageEv` carries the decoded
value plus the raw wire payload of the originating event. -/
inductive Event where
  | openEv (tag : ℕ)
  | messageEv (d : MsgData) (raw : Wire)
  | closeEv (e : CloseEvent)
  | errorEv
  | reconnecting (attempt : ℕ) (interval : ℚ)
  | reconnectFailed
  deriving DecidableEq, Repr

/-- Side effects on the transport and the host timer API. -/
inductive Action where
  | createSocket
  | closeSocket (code : ℕ) (reason : String)
  | transportSend (w : Wire)
  | setTimer (interval : ℚ)
  | clearTimer
  deriving DecidableEq, Repr

/-- The configuration captured from `this.options` (the fields the lifecycle
engine reads; `url`/`protocols`/`headers` only flow to the adapter and are
irrelevant to the claims).  `maxReconnectAttempts` defaults to `Infinity`
in the source, modelled as `none`. -/
structure Config where
  reconnectInterval : ℚ
  maxReconnectInterval : ℚ
  reconnectDecay : ℚ
  maxReconnectAttempts : Option ℕ
  automaticReconnect : Bool
  shouldReconnect : CloseEvent → Bool

/-- `this.reconnectAttempts >= this.options.maxReconnectAttempts`, where
`maxReconnectAttempts = Infinity` (`none`) makes the comparison false. -/
def atMaxAttempts (attempts : ℕ) : Option ℕ → Bool
  | none => false
  | some m => m ≤ attempts

/-- The mutable instance state of `WebSocketClient`.  `socket` records
whether `this.socket` is non-null; `reconnectTimer` records the JS field
`this.reconnectTimer` (`some iv` = a timer id is stored, scheduled with
interval `iv`). -/
structure ClientState where
  socket : Bool
  isConnected : Bool
  isConnecting : Bool
  reconnectAttempts : ℕ
  reconnectTimer : Option ℚ
  currentReconnectInterval : ℚ
  messageQueue : List SendData
  preventReconnect : Bool
  deriving DecidableEq, Repr

/-- The external collaborators: `JSON.parse` (`none` = throws),
`JSON.stringify`, and whether `adapter.sendMessage` throws on a payload. -/
structure Env where
  parse : String → Option JValue
  strfy : JValue → String
  sendFails : Wire → Bool

/-- Result of one engine step: new state, emitted events, performed
actions. -/
structure Out where
  s : ClientState
  evs : List Event
  acts : List Action
  deriving Repr

/-- The state of a freshly constructed client with `automaticOpen: false`:
`socket = null`, flags false, `reconnectAttempts = 0`, no timer,
`currentReconnectInterval = options.reconnectInterval`, empty queue. -/
def initState (cfg : Config) : ClientState :=
  { socket := false
    isConnected := false
    isConnecting := false
    reconnectAttempts := 0
    reconnectTimer := none
    currentReconnectInterval := cfg.reconnectInterval
    messageQueue := []
    preventReconnect := false }

/-- `_clearReconnectTimer()`: if a timer id is stored, `clearTimeout` it and
null the field. -/
def clearReconnectTimer (s : ClientState) : ClientState × List Action :=
  match s.reconnectTimer with
  | some _ => ({ s with reconnectTimer := none }, [Action.clearTimer])
  | none => (s, [])

/-- Whether `connect()` returned an already-resolved promise (taken when
already connected or connecting) or started a fresh attempt. -/
inductive ConnectRes where
  | resolvedImmediate
  | started
  deriving DecidableEq, Repr

/-- `connect()`: no-op returning `Promise.resolve()` when
`isConnected || isConnecting`; otherwise set `isConnecting`, create the
socket via the adapter and install the handlers (the handler bodies are the
`handle*` functions below, invoked by the driver `step`). -/
def connect (s : ClientState) : ClientState × List Action × ConnectRes :=
  if s.isConnected || s.isConnecting then
    (s, [], ConnectRes.resolvedImmediate)
  else
    ({ s with isConnecting := true, socket := true },
      [Action.createSocket], ConnectRes.started)

/-- `disconnect(code, reason)`: clear the reconnect timer; if a socket
exists, set `_preventReconnect`, close it through the adapter and null the
field; finally clear `isConnected`/`isConnecting`.  Emits no lifecycle
events. -/
def disconnect (s : ClientState) (code : ℕ) (reason : String) :
    ClientState × List Action :=
  let c := clearReconnectTimer s
  if c.1.socket then
    ({ c.1 with
        preventReconnect := true
        socket := false
        isConnected := false
        isConnecting := false },
      c.2 ++ [Action.closeSocket code reason])
  else
    ({ c.1 with isConnected := false, isConnecting := false }, c.2)

/-- `disconnect()` with the default arguments `code = 1000`,
`reason = 'Normal closure'`. -/
def disconnectDefault (s : ClientState) : ClientState × List Action :=
  disconnect s 1000 "Normal closure"

/-- Lines 180–183 of `send`: objects that are neither `ArrayBuffer` nor
`Blob` go through `JSON.stringify`; strings and binary payloads pass
unchanged. -/
def serialize (env : Env) : SendData → Wire
  | SendData.str s => Wire.text s
  | SendData.obj v => Wire.text (env.strfy v)
  | SendData.arrayBuffer b => Wire.binary b
  | SendData.blob b => Wire.binary b

/-- `send(data)`: queue when not connected (returning `false`); otherwise
serialize and `adapter.sendMessage`, catching a throw by emitting `error`
and returning `false`.  The `Bool` is the method's return value. -/
def send (env : Env) (s : ClientState) (d : SendData) : Out × Bool :=
  if !s.isConnected then
    ({ s := { s with messageQueue := s.messageQueue ++ [d] },
       evs := [], acts := [] }, false)
  else
    let w := serialize env d
    if env.sendFails w then
      ({ s := s, evs := [Event.errorEv], acts := [] }, false)
    else
      ({ s := s, evs := [], acts := [Action.transportSend w] }, true)

/-- `reconnect()`: clear any existing timer; if `reconnectAttempts` has
reached `maxReconnectAttempts`, emit `reconnect_failed` and stop; otherwise
increment the attempt counter, update the interval to
`Math.min(currentReconnectInterval * reconnectDecay, maxReconnectInterval)`,
emit `reconnecting` and schedule the deferred `connect()`. -/
def reconnect (cfg : Config) (s : ClientState) : Out :=
  let c := clearReconnectTimer s
  if atMaxAttempts c.1.reconnectAttempts cfg.maxReconnectAttempts then
    { s := c.1, evs := [Event.reconnectFailed], acts := c.2 }
  else
    let att := c.1.reconnectAttempts + 1
    let iv := min (c.1.currentReconnectInterval * cfg.reconnectDecay)
        cfg.maxReconnectInterval
    { s := { c.1 with
          reconnectAttempts := att
          currentReconnectInterval := iv
          reconnectTimer := some iv },
      evs := [Event.reconnecting att iv],
      acts := c.2 ++ [Action.setTimer iv] }

/-- The `while (this.messageQueue.length > 0) this.send(this.messageQueue.shift())`
drain loop of `_handleOpen`, with explicit fuel (the loop itself has no
static bound; `_handleOpen` runs it with fuel equal to the queue length,
which suffices because `send` never grows the queue while connected —
`drainLoop_connected` below). -/
def drainLoop (env : Env) : ℕ → ClientState → Out
  | 0, s => { s := s, evs := [], acts := [] }
  | Nat.succ n, s =>
    match s.messageQueue with
    | [] => { s := s, evs := [], acts := [] }
    | d :: rest =>
      let o := (send env { s with messageQueue := rest } d).1
      let r := drainLoop env n o.s
      { s := r.s, evs := o.evs ++ r.evs, acts := o.acts ++ r.acts }

/-- `_handleOpen(event)`: mark connected, reset `reconnectAttempts`,
reset the backoff interval to the base, clear `_preventReconnect`, emit
`open`, then drain the queue through `send`. -/
def handleOpen (cfg : Config) (env : Env) (s : ClientState) (tag : ℕ) : Out :=
  let s1 := { s with
      isConnected := true
      isConnecting := false
      reconnectAttempts := 0
      currentReconnectInterval := cfg.reconnectInterval
      preventReconnect := false }
  let d := drainLoop env s1.messageQueue.length s1
  { s := d.s, evs := Event.openEv tag :: d.evs, acts := d.acts }

/-- `_handleMessage(event)`: strings go through a `try JSON.parse` whose
failure is swallowed (raw text kept); binary passes through; exactly one
`message` event fires with the decoded value and the raw event. -/
def handleMessage (env : Env) (s : ClientState) (w : Wire) : Out :=
  match w with
  | Wire.text str =>
    match env.parse str with
    | some v =>
      { s := s, evs := [Event.messageEv (MsgData.parsed v) w], acts := [] }
    | none =>
      { s := s, evs := [Event.messageEv (MsgData.text str) w], acts := [] }
  | Wire.binary b =>
    { s := s, evs := [Event.messageEv (MsgData.binary b) w], acts := [] }

/-- `_handleClose(event)`: mark disconnected, null the socket, emit `close`;
if `automaticReconnect && !_preventReconnect && shouldReconnect(event)`,
invoke `reconnect()`; finally reset `_preventReconnect`. -/
def handleClose (cfg : Config) (s : ClientState) (ev : CloseEvent) : Out :=
  let s1 := { s with isConnected := false, socket := false }
  if cfg.automaticReconnect && !s1.preventReconnect &&
      cfg.shouldReconnect ev then
    let r := reconnect cfg s1
    { s := { r.s with preventReconnect := false },
      evs := Event.closeEv ev :: r.evs, acts := r.acts }
  else
    { s := { s1 with preventReconnect := false },
      evs := [Event.closeEv ev], acts := [] }

/-- The `onerror` wrapper installed by `connect`: `_handleError` emits
`error`; if the connect attempt was still in flight its promise is rejected
and `isConnecting` is cleared. -/
def handleError (s : ClientState) : Out :=
  if s.isConnecting then
    { s := { s with isConnecting := false }, evs := [Event.errorEv], acts := [] }
  else
    { s := s, evs := [Event.errorEv], acts := [] }

/-- One external stimulus to the engine: a transport callback, a public
method call, or the reconnect timer firing (whose callback runs
`this.connect().catch(err => this.emit('error', err))`; the `catch`
concerns a later asynchronous rejection, which reaches the engine as a
separate `transportError`). -/
inductive Input where
  | transportOpen (tag : ℕ)
  | transportMessage (w : Wire)
  | transportClose (ev : CloseEvent)
  | transportError
  | callConnect
  | callDisconnect (code : ℕ) (reason : String)
  | callSend (d : SendData)
  | timerFire
  deriving DecidableEq, Repr

/-- Sequential dispatch of one input to the engine. -/
def step (cfg : Config) (env : Env) (s : ClientState) : Input → Out
  | Input.transportOpen tag => handleOpen cfg env s tag
  | Input.transportMessage w => handleMessage env s w
  | Input.transportClose ev => handleClose cfg s ev
  | Input.transportError => handleError s
  | Input.callConnect =>
    let c := connect s
    { s := c.1, evs := [], acts := c.2.1 }
  | Input.callDisconnect code reason =>
    let d := disconnect s code reason
    { s := d.1, evs := [], acts := d.2 }
  | Input.callSend d =>
    let r := (send env s d).1
    r
  | Input.timerFire =>
    let c := connect s
    { s := c.1, evs := [], acts := c.2.1 }

/-- Run a list of inputs sequentially, concatenating events and actions. -/
def run (cfg : Config) (env : Env) : ClientState → List Input → Out
  | s, [] => { s := s, evs := [], acts := [] }
  | s, i :: rest =>
    let o := step cfg env s i
    let r := run cfg env o.s rest
    { s := r.s, evs := o.evs ++ r.evs, acts := o.acts ++ r.acts }

/-- The intervals of the `setTimeout` calls in an action trace, in order. -/
def setTimersOf : List Action → List ℚ
  | [] => []
  | Action.setTimer iv :: rest => iv :: setTimersOf rest
  | _ :: rest => setTimersOf rest

/-- Count of occurrences of an event in an emitted-event list. -/
def countEv (e : Event) : List Event → ℕ
  | [] => 0
  | x :: rest => (if x = e then 1 else 0) + countEv e rest

/-! ### Concrete fixtures used by witnesses and counterexamples -/

/-- The configuration of the spec's backoff example scenario: base 1000 ms,
ceiling 30000 ms, decay 2.0, cap 5 attempts, automatic reconnect on, and a
`shouldReconnect` accepting exactly the unclean closures. -/
def cfg1 : Config :=
  { reconnectInterval := 1000
    maxReconnectInterval := 30000
    reconnectDecay := 2
    maxReconnectAttempts := some 5
    automaticReconnect := true
    shouldReconnect := fun e => !e.wasClean }

/-- An environment where `JSON.parse` always throws, `JSON.stringify` is
constant, and transport sends never throw. -/
def env0 : Env :=
  { parse := fun _ => none
    strfy := fun _ => "\x7b\x7d"
    sendFails := fun _ => false }

/-- A client that has just connected successfully under `cfg1`. -/
def sOpen : ClientState :=
  { socket := true
    isConnected := true
    isConnecting := false
    reconnectAttempts := 0
    reconnectTimer := none
    currentReconnectInterval := 1000
    messageQueue := []
    preventReconnect := false }

/-- An abnormal-closure event (`wasClean = false`). -/
def uncleanClose : CloseEvent := { code := 1006, reason := "", wasClean := false }

/-- `n` consecutive unclean transport closures. -/
def closes (n : ℕ) : List Input :=
  List.replicate n (Input.transportClose uncleanClose)

/-! ### Helper lemmas about the individual operations -/

theorem clearReconnectTimer_fst (s : ClientState) :
    (clearReconnectTimer s).1 = { s with reconnectTimer := none } := by
  obtain ⟨sk, c1, c2, ra, rt, cur, q, pr⟩ := s
  cases rt <;> rfl

theorem clearReconnectTimer_snd (s : ClientState) :
    (clearReconnectTimer s).2 =
      if s.reconnectTimer.isSome then [Action.clearTimer] else [] := by
  cases h : s.reconnectTimer <;> simp [clearReconnectTimer, h]

theorem send_notConnected (env : Env) (s : ClientState) (d : SendData)
    (h : s.isConnected = false) :
    send env s d =
      ({ s := { s with messageQueue := s.messageQueue ++ [d] },
         evs := [], acts := [] }, false) := by
  simp [send, h]

theorem send_live (env : Env) (s : ClientState) (d : SendData)
    (h : s.isConnected = true)
    (hf : env.sendFails (serialize env d) = false) :
    send env s d =
      ({ s := s, evs := [],
         acts := [Action.transportSend (serialize env d)] }, true) := by
  simp [send, h, hf]

theorem send_throws (env : Env) (s : ClientState) (d : SendData)
    (h : s.isConnected = true)
    (hf : env.sendFails (serialize env d) = true) :
    send env s d = ({ s := s, evs := [Event.errorEv], acts := [] }, false) := by
  simp [send, h, hf]

theorem send_isConnected (env : Env) (s : ClientState) (d : SendData) :
    (send env s d).1.s.isConnected = s.isConnected := by
  cases hc : s.isConnected
  · simp [send, hc]
  · cases hf : env.sendFails (serialize env d) <;> simp [send, hc, hf]

theorem send_reconnectTimer (env : Env) (s : ClientState) (d : SendData) :
    (send env s d).1.s.reconnectTimer = s.reconnectTimer := by
  cases hc : s.isConnected <;>
    simp [send, hc] <;>
    cases hf : env.sendFails (serialize env d) <;> simp [hf]

theorem send_acts_sendOnly (env : Env) (s : ClientState) (d : SendData) :
    ∀ a ∈ (send env s d).1.acts, ∃ w, a = Action.transportSend w := by
  cases hc : s.isConnected <;>
    simp [send, hc] <;>
    cases hf : env.sendFails (serialize env d) <;> simp [hf]

theorem send_evs_errorOnly (env : Env) (s : ClientState) (d : SendData) :
    ∀ e ∈ (send env s d).1.evs, e = Event.errorEv := by
  cases hc : s.isConnected <;>
    simp [send, hc] <;>
    cases hf : env.sendFails (serialize env d) <;> simp [hf]

theorem drainLoop_connected (env : Env) (hf : ∀ w, env.sendFails w = false) :
    ∀ (q : List SendData) (s : ClientState), s.isConnected = true →
      s.messageQueue = q →
      drainLoop env q.length s =
        { s := { s with messageQueue := [] }, evs := [],
          acts := q.map (fun d => Action.transportSend (serialize env d)) } := by
  intro q
  induction q with
  | nil =>
    intro s hc hq
    obtain ⟨sk, c1, c2, ra, rt, cur, mq, pr⟩ := s
    simp only at hq
    subst hq
    rfl
  | cons d rest ih =>
    intro s hc hq
    have h1 : ({ s with messageQueue := rest } : ClientState).isConnected = true := hc
    have h2 := send_live env { s with messageQueue := rest } d h1 (hf _)
    have h3 := ih { s with messageQueue := rest } h1 rfl
    simp [List.length_cons, drainLoop, hq, h2, h3, List.map_cons]

theorem drainLoop_evs_errorOnly (env : Env) :
    ∀ (n : ℕ) (s : ClientState), ∀ e ∈ (drainLoop env n s).evs, e = Event.errorEv := by
  intro n
  induction n with
  | zero => intro s e he; simp [drainLoop] at he
  | succ n ih =>
    intro s e he
    rcases hq : s.messageQueue with _ | ⟨d, rest⟩ <;>
      simp only [drainLoop, hq, List.mem_append] at he
    · simp at he
    · rcases he with he | he
      · exact send_evs_errorOnly env _ d e he
      · exact ih _ e he

theorem drainLoop_acts_sendOnly (env : Env) :
    ∀ (n : ℕ) (s : ClientState), ∀ a ∈ (drainLoop env n s).acts,
      ∃ w, a = Action.transportSend w := by
  intro n
  induction n with
  | zero => intro s a ha; simp [drainLoop] at ha
  | succ n ih =>
    intro s a ha
    rcases hq : s.messageQueue with _ | ⟨d, rest⟩ <;>
      simp only [drainLoop, hq, List.mem_append] at ha
    · simp at ha
    · rcases ha with ha | ha
      · exact send_acts_sendOnly env _ d a ha
      · exact ih _ a ha

theorem drainLoop_reconnectTimer (env : Env) :
    ∀ (n : ℕ) (s : ClientState), (drainLoop env n s).s.reconnectTimer = s.reconnectTimer := by
  intro n
  induction n with
  | zero => intro s; rfl
  | succ n ih =>
    intro s
    rcases hq : s.messageQueue with _ | ⟨d, rest⟩ <;> simp only [drainLoop, hq]
    rw [ih, send_reconnectTimer]

theorem send_currentReconnectInterval (env : Env) (s : ClientState) (d : SendData) :
    (send env s d).1.s.currentReconnectInterval = s.currentReconnectInterval := by
  cases hc : s.isConnected
  · simp [send, hc]
  · cases hf : env.sendFails (serialize env d) <;> simp [send, hc, hf]

theorem drainLoop_currentReconnectInterval (env : Env) :
    ∀ (n : ℕ) (s : ClientState),
      (drainLoop env n s).s.currentReconnectInterval = s.currentReconnectInterval := by
  intro n
  induction n with
  | zero => intro s; rfl
  | succ n ih =>
    intro s
    rcases hq : s.messageQueue with _ | ⟨d, rest⟩ <;> simp only [drainLoop, hq]
    rw [ih, send_currentReconnectInterval]

theorem run_sends_notConnected (cfg : Config) (env : Env) :
    ∀ (ds : List SendData) (s : ClientState), s.isConnected = false →
      run cfg env s (ds.map Input.callSend) =
        { s := { s with messageQueue := s.messageQueue ++ ds },
          evs := [], acts := [] } := by
  intro ds
  induction ds with
  | nil =>
    intro s hc
    obtain ⟨sk, c1, c2, ra, rt, cur, mq, pr⟩ := s
    simp [run]
  | cons d rest ih =>
    intro s hc
    have h1 := send_notConnected env s d hc
    have h2 := ih { s with messageQueue := s.messageQueue ++ [d] } hc
    simp [run, step, h1, h2]

theorem run_sends_connected (cfg : Config) (env : Env)
    (hf : ∀ w, env.sendFails w = false) :
    ∀ (ds : List SendData) (s : ClientState), s.isConnected = true →
      run cfg env s (ds.map Input.callSend) =
        { s := s, evs := [],
          acts := ds.map (fun d => Action.transportSend (serialize env d)) } := by
  intro ds
  induction ds with
  | nil => intro s hc; rfl
  | cons d rest ih =>
    intro s hc
    have h1 := send_live env s d hc (hf _)
    have h2 := ih s hc
    simp [run, step, h1, h2]

/-- `_handleOpen` fully evaluated when transport sends do not throw: the
state becomes connected with the counters reset and the queue empty, only
the `open` event fires, and the performed actions are exactly the queued
payloads, serialized, in insertion order. -/
theorem handleOpen_eq (cfg : Config) (env : Env)
    (hf : ∀ w, env.sendFails w = false) (s : ClientState) (tag : ℕ) :
    handleOpen cfg env s tag =
      { s := { s with
          isConnected := true
          isConnecting := false
          reconnectAttempts := 0
          currentReconnectInterval := cfg.reconnectInterval
          preventReconnect := false
          messageQueue := [] }
        evs := [Event.openEv tag]
        acts := s.messageQueue.map
          (fun d => Action.transportSend (serialize env d)) } := by
  have h := drainLoop_connected env hf s.messageQueue
    { s with
        isConnected := true
        isConnecting := false
        reconnectAttempts := 0
        currentReconnectInterval := cfg.reconnectInterval
        preventReconnect := false } rfl rfl
  simp [handleOpen, h]

/-! ### Unfolding lemmas for the reconnect scheduler and the close handler -/

theorem reconnect_atMax (cfg : Config) (s : ClientState)
    (h : atMaxAttempts s.reconnectAttempts cfg.maxReconnectAttempts = true) :
    reconnect cfg s =
      { s := { s with reconnectTimer := none }
        evs := [Event.reconnectFailed]
        acts := if s.reconnectTimer.isSome then [Action.clearTimer] else [] } := by
  obtain ⟨sk, c1, c2, ra, rt, cur, mq, pr⟩ := s
  cases rt <;> simp_all [reconnect, clearReconnectTimer]

theorem reconnect_below (cfg : Config) (s : ClientState)
    (h : atMaxAttempts s.reconnectAttempts cfg.maxReconnectAttempts = false) :
    reconnect cfg s =
      { s := { s with
          reconnectAttempts := s.reconnectAttempts + 1
          currentReconnectInterval :=
            min (s.currentReconnectInterval * cfg.reconnectDecay)
              cfg.maxReconnectInterval
          reconnectTimer :=
            some (min (s.currentReconnectInterval * cfg.reconnectDecay)
              cfg.maxReconnectInterval) }
        evs := [Event.reconnecting (s.reconnectAttempts + 1)
          (min (s.currentReconnectInterval * cfg.reconnectDecay)
            cfg.maxReconnectInterval)]
        acts := (if s.reconnectTimer.isSome then [Action.clearTimer] else []) ++
          [Action.setTimer (min (s.currentReconnectInterval * cfg.reconnectDecay)
            cfg.maxReconnectInterval)] } := by
  obtain ⟨sk, c1, c2, ra, rt, cur, mq, pr⟩ := s
  cases rt <;> simp_all [reconnect, clearReconnectTimer]

theorem reconnect_evs_shape (cfg : Config) (s : ClientState) :
    ∀ e ∈ (reconnect cfg s).evs, e = Event.reconnectFailed ∨
      ∃ a iv, e = Event.reconnecting a iv := by
  cases h : atMaxAttempts s.reconnectAttempts cfg.maxReconnectAttempts
  · rw [reconnect_below cfg s h]; simp
  · rw [reconnect_atMax cfg s h]; simp

/-- The eligibility guard of `_handleClose`, evaluated on the pre-close
state (the socket/connected fields it mutates first do not feed the
guard). -/
def closeGuard (cfg : Config) (s : ClientState) (ev : CloseEvent) : Bool :=
  cfg.automaticReconnect && !s.preventReconnect && cfg.shouldReconnect ev

theorem handleClose_noReconnect (cfg : Config) (s : ClientState)
    (ev : CloseEvent) (h : closeGuard cfg s ev = false) :
    handleClose cfg s ev =
      { s := { s with
          isConnected := false
          socket := false
          preventReconnect := false }
        evs := [Event.closeEv ev]
        acts := [] } := by
  simp only [closeGuard] at h
  simp [handleClose, h]

theorem handleClose_reconnect (cfg : Config) (s : ClientState)
    (ev : CloseEvent) (h : closeGuard cfg s ev = true) :
    handleClose cfg s ev =
      { s := { (reconnect cfg { s with isConnected := false, socket := false }).s
          with preventReconnect := false }
        evs := Event.closeEv ev ::
          (reconnect cfg { s with isConnected := false, socket := false }).evs
        acts := (reconnect cfg { s with isConnected := false, socket := false }).acts } := by
  simp only [closeGuard] at h
  simp [handleClose, h]

/-! ### C6 – C10 -/

/-- C6: `disconnect(code, reason)` cancels any pending reconnect timer, and
when a socket exists it sets the suppression flag, requests transport close
with the given code and reason and discards the handle; it clears
`isConnected`/`isConnecting` synchronously; the defaults are
`1000` / `"Normal closure"`; a transport close delivered while the
suppression flag is set never schedules a reconnect and clears the flag;
and `disconnect` on a never-connected client is a no-op. -/
theorem C6_disconnect (s : ClientState) (code : ℕ) (reason : String) :
    ((disconnect s code reason).1.reconnectTimer = none ∧
      (s.reconnectTimer.isSome = true →
        Action.clearTimer ∈ (disconnect s code reason).2)) ∧
    (s.socket = true →
      (disconnect s code reason).1.preventReconnect = true ∧
      Action.closeSocket code reason ∈ (disconnect s code reason).2 ∧
      (disconnect s code reason).1.socket = false) ∧
    (disconnect s code reason).1.isConnected = false ∧
    (disconnect s code reason).1.isConnecting = false ∧
    disconnectDefault s = disconnect s 1000 "Normal closure" ∧
    (∀ (cfg : Config) (s' : ClientState) (ev : CloseEvent),
      s'.preventReconnect = true →
        (handleClose cfg s' ev).acts = [] ∧
        (handleClose cfg s' ev).evs = [Event.closeEv ev] ∧
        (handleClose cfg s' ev).s.preventReconnect = false) ∧
    (∀ cfg : Config, disconnect (initState cfg) code reason = (initState cfg, [])) := by
  refine ⟨⟨?_, ?_⟩, ?_, ?_, ?_, rfl, ?_, ?_⟩
  · rw [show (disconnect s code reason).1.reconnectTimer =
        ((disconnect s code reason).1.reconnectTimer) from rfl]
    cases hrt : s.reconnectTimer <;>
      cases hsk : s.socket <;>
        simp [disconnect, clearReconnectTimer, hrt, hsk]
  · intro h
    cases hsk : s.socket <;>
      simp [disconnect, clearReconnectTimer_fst, clearReconnectTimer_snd, hsk, h]
  · cases hsk : s.socket <;>
      simp [disconnect, clearReconnectTimer_fst, hsk]
  · cases hsk : s.socket <;>
      simp [disconnect, clearReconnectTimer_fst, hsk]
  · cases hsk : s.socket <;>
      simp [disconnect, clearReconnectTimer_fst, clearReconnectTimer_snd, hsk]
  · intro cfg s' ev h
    simp [handleClose, h]
  · intro cfg
    simp [disconnect, initState, clearReconnectTimer]

/-- C6 witness: instantiated on a connected client with a pending timer. -/
theorem C6_witness :
    (disconnect sOpen 1001 "bye").1.preventReconnect = true ∧
    Action.closeSocket 1001 "bye" ∈ (disconnect sOpen 1001 "bye").2 := by
  have h := C6_disconnect sOpen 1001 "bye"
  have h2 := h.2.1 (by simp [sOpen])
  exact ⟨h2.1, h2.2.1⟩

/-- C7: `connect()` while already `OPEN` or already `CONNECTING` returns an
already-resolved success marker, performs no action, and leaves the whole
instance state (socket handle, queue, counters, timers) unchanged. -/
theorem C7_connect_noop (s : ClientState)
    (h : s.isConnected = true ∨ s.isConnecting = true) :
    connect s = (s, [], ConnectRes.resolvedImmediate) := by
  rcases h with h | h <;> simp [connect, h]

/-- C7 witness: `connect()` on an already-open client. -/
theorem C7_witness : connect sOpen = (sOpen, [], ConnectRes.resolvedImmediate) :=
  C7_connect_noop sOpen (Or.inl rfl)

/-- C8: `_handleMessage` decodes textual payloads via `JSON.parse` when it
succeeds, delivers the raw text unchanged when it throws (no `error`
event), passes binary payloads through unmodified, and in all cases fires
exactly one `message` event carrying the decoded (or raw) value together
with the original raw event; the client state is untouched. -/
theorem C8_message_decode (env : Env) (s : ClientState) :
    (∀ str v, env.parse str = some v →
      handleMessage env s (Wire.text str) =
        { s := s, evs := [Event.messageEv (MsgData.parsed v) (Wire.text str)],
          acts := [] }) ∧
    (∀ str, env.parse str = none →
      handleMessage env s (Wire.text str) =
        { s := s, evs := [Event.messageEv (MsgData.text str) (Wire.text str)],
          acts := [] }) ∧
    (∀ b, handleMessage env s (Wire.binary b) =
      { s := s, evs := [Event.messageEv (MsgData.binary b) (Wire.binary b)],
        acts := [] }) := by
  refine ⟨?_, ?_, ?_⟩
  · intro str v h; simp [handleMessage, h]
  · intro str h; simp [handleMessage, h]
  · intro b; simp [handleMessage]

/-- C8 witness: under an always-throwing `JSON.parse`, a text payload is
delivered raw. -/
theorem C8_witness :
    handleMessage env0 sOpen (Wire.text "hi") =
      { s := sOpen, evs := [Event.messageEv (MsgData.text "hi") (Wire.text "hi")],
        acts := [] } :=
  (C8_message_decode env0 sOpen).2.1 "hi" rfl

/-- C9: `send(payload)` queues the payload verbatim and reports `false`
when not `OPEN`; serializes structured non-binary payloads to text for the
transport when `OPEN` (reporting `true`); and catches a transport-level
send throw, surfacing it as an `error` event, reporting `false`, and
leaving the queue unchanged (no re-queue). -/
theorem C9_send (env : Env) (s : ClientState) :
    (∀ d, s.isConnected = false →
      send env s d =
        ({ s := { s with messageQueue := s.messageQueue ++ [d] },
           evs := [], acts := [] }, false)) ∧
    (∀ v, s.isConnected = true →
      env.sendFails (Wire.text (env.strfy v)) = false →
      send env s (SendData.obj v) =
        ({ s := s, evs := [],
           acts := [Action.transportSend (Wire.text (env.strfy v))] }, true)) ∧
    (∀ d, s.isConnected = true → env.sendFails (serialize env d) = true →
      send env s d = ({ s := s, evs := [Event.errorEv], acts := [] }, false)) := by
  refine ⟨?_, ?_, ?_⟩
  · intro d h; exact send_notConnected env s d h
  · intro v h hf; exact send_live env s (SendData.obj v) h hf
  · intro d h hf; exact send_throws env s d h hf

/-- C9 witness: a structured payload sent while connected reaches the
transport as its serialized text form. -/
theorem C9_witness :
    send env0 sOpen (SendData.obj JValue.jnull) =
      ({ s := sOpen, evs := [],
         acts := [Action.transportSend (Wire.text (env0.strfy JValue.jnull))] },
        true) :=
  (C9_send env0 sOpen).2.1 JValue.jnull rfl rfl

/-- C10: `disconnect` itself emits no lifecycle event whatsoever, and a
`close` lifecycle event is emitted only by the step that processes a
transport-originated close callback (carrying that very close event). -/
theorem C10_disconnect_silent (cfg : Config) (env : Env) :
    (∀ (s : ClientState) (code : ℕ) (reason : String),
      (step cfg env s (Input.callDisconnect code reason)).evs = []) ∧
    (∀ (s : ClientState) (i : Input) (ev : CloseEvent),
      Event.closeEv ev ∈ (step cfg env s i).evs → i = Input.transportClose ev) := by
  constructor
  · intro s code reason; rfl
  · intro s i ev h
    cases i with
    | transportOpen tag =>
      simp only [step, handleOpen, List.mem_cons] at h
      rcases h with h | h
      · exact absurd h (by simp)
      · exact absurd (drainLoop_evs_errorOnly env _ _ _ h) (by simp)
    | transportMessage w =>
      rcases w with str | b <;> simp only [step, handleMessage] at h
      · rcases hp : env.parse str with _ | v <;> simp [hp] at h
      · simp at h
    | transportClose ev' =>
      have hsame : ev = ev' := by
        cases hg : closeGuard cfg s ev'
        · rw [show (step cfg env s (Input.transportClose ev')) =
              handleClose cfg s ev' from rfl,
            handleClose_noReconnect cfg s ev' hg] at h
          simp at h
          exact h
        · rw [show (step cfg env s (Input.transportClose ev')) =
              handleClose cfg s ev' from rfl,
            handleClose_reconnect cfg s ev' hg] at h
          simp only [List.mem_cons] at h
          rcases h with h | h
          · exact (Event.closeEv.injEq ev ev').mp h
          · rcases reconnect_evs_shape cfg _ _ h with h2 | ⟨a, iv, h2⟩ <;>
              simp at h2
      subst hsame
      rfl
    | transportError =>
      by_cases hc : s.isConnecting = true <;> simp [step, handleError, hc] at h
    | callConnect =>
      by_cases hc : (s.isConnected || s.isConnecting) = true <;>
        simp [step, connect, hc] at h
    | callDisconnect code reason => simp [step] at h
    | callSend d =>
      have := send_evs_errorOnly env s d (Event.closeEv ev) h
      exact absurd this (by simp)
    | timerFire =>
      by_cases hc : (s.isConnected || s.isConnecting) = true <;>
        simp [step, connect, hc] at h

/-- C10 witness: a transport close step does emit the close event, and the
theorem identifies its origin. -/
theorem C10_witness :
    (step cfg1 env0 sOpen (Input.callDisconnect 1000 "bye")).evs = [] ∧
    Input.transportClose uncleanClose = Input.transportClose uncleanClose := by
  refine ⟨(C10_disconnect_silent cfg1 env0).1 sOpen 1000 "bye", ?_⟩
  refine (C10_disconnect_silent cfg1 env0).2 sOpen (Input.transportClose uncleanClose)
    uncleanClose ?_
  rw [show step cfg1 env0 sOpen (Input.transportClose uncleanClose) =
      handleClose cfg1 sOpen uncleanClose from rfl,
    handleClose_reconnect cfg1 sOpen uncleanClose
      (by simp [closeGuard, cfg1, sOpen, uncleanClose])]
  simp

/-! ### C1 – C3 -/

/-- C1 counterexample: under base 1000 ms, decay 2.0, ceiling 30000 ms,
cap 5, six consecutive eligible unclean closures schedule the intervals
2000, 4000, 8000, 16000, 30000 — not 1000, 2000, 4000, 8000, 16000 as
claimed: the scheduler multiplies the current interval by the decay before
the first scheduling, so the base interval itself is never used as a
delay. -/
theorem C1_counterexample :
    setTimersOf (run cfg1 env0 sOpen (closes 6)).acts =
      [2000, 4000, 8000, 16000, 30000] ∧
    setTimersOf (run cfg1 env0 sOpen (closes 6)).acts ≠
      [1000, 2000, 4000, 8000, 16000] := by
  constructor <;>
    norm_num [run, step, handleClose, reconnect, clearReconnectTimer,
      atMaxAttempts, setTimersOf, cfg1, env0, sOpen, uncleanClose, closes,
      List.replicate]

/-- C1 (amended): with reconnectInterval 1000, reconnectDecay 2.0,
maxReconnectInterval 30000, maxReconnectAttempts 5, consecutive eligible
unclean closures with no intervening open schedule reconnect timers with
intervals exactly 2000, 4000, 8000, 16000, 30000 in that order, and the
6th such closure emits `reconnect_failed` exactly once and schedules no
timer. -/
theorem C1_backoff_schedule :
    setTimersOf (run cfg1 env0 sOpen (closes 6)).acts =
      [2000, 4000, 8000, 16000, 30000] ∧
    (step cfg1 env0 (run cfg1 env0 sOpen (closes 5)).s
        (Input.transportClose uncleanClose)).evs =
      [Event.closeEv uncleanClose, Event.reconnectFailed] ∧
    setTimersOf (step cfg1 env0 (run cfg1 env0 sOpen (closes 5)).s
        (Input.transportClose uncleanClose)).acts = [] ∧
    countEv Event.reconnectFailed (run cfg1 env0 sOpen (closes 6)).evs = 1 := by
  refine ⟨?_, ?_, ?_, ?_⟩ <;>
    norm_num [run, step, handleClose, reconnect, clearReconnectTimer,
      atMaxAttempts, setTimersOf, countEv, cfg1, env0, sOpen, uncleanClose,
      closes, List.replicate] <;>
    decide

/-- C2: on every scheduling step below the attempt cap the backoff interval
becomes `min(current * reconnectDecay, maxReconnectInterval)`; under a
decay above 1 and a nonnegative base no larger than the ceiling, a close
step never decreases the interval and keeps it at or below the ceiling;
and a successful open resets it to the configured base. -/
theorem C2_backoff (cfg : Config) (env : Env)
    (hdecay : 1 < cfg.reconnectDecay)
    (hbase0 : 0 ≤ cfg.reconnectInterval)
    (hbm : cfg.reconnectInterval ≤ cfg.maxReconnectInterval) :
    (∀ s : ClientState,
      atMaxAttempts s.reconnectAttempts cfg.maxReconnectAttempts = false →
      (reconnect cfg s).s.currentReconnectInterval =
        min (s.currentReconnectInterval * cfg.reconnectDecay)
          cfg.maxReconnectInterval) ∧
    (∀ (s : ClientState) (ev : CloseEvent),
      0 ≤ s.currentReconnectInterval →
      s.currentReconnectInterval ≤ cfg.maxReconnectInterval →
      s.currentReconnectInterval ≤
        (handleClose cfg s ev).s.currentReconnectInterval ∧
      (handleClose cfg s ev).s.currentReconnectInterval ≤
        cfg.maxReconnectInterval) ∧
    (∀ (s : ClientState) (tag : ℕ),
      (handleOpen cfg env s tag).s.currentReconnectInterval =
        cfg.reconnectInterval) := by
  have hstep : ∀ s : ClientState, 0 ≤ s.currentReconnectInterval →
      s.currentReconnectInterval ≤ cfg.maxReconnectInterval →
      s.currentReconnectInterval ≤ (reconnect cfg s).s.currentReconnectInterval ∧
      (reconnect cfg s).s.currentReconnectInterval ≤ cfg.maxReconnectInterval := by
    intro s h0 hle
    cases hm : atMaxAttempts s.reconnectAttempts cfg.maxReconnectAttempts
    · rw [reconnect_below cfg s hm]
      refine ⟨le_min ?_ hle, min_le_right _ _⟩
      exact le_mul_of_one_le_right h0 hdecay.le
    · rw [reconnect_atMax cfg s hm]
      exact ⟨le_refl _, hle⟩
  refine ⟨?_, ?_, ?_⟩
  · intro s hm
    rw [reconnect_below cfg s hm]
  · intro s ev h0 hle
    cases hg : closeGuard cfg s ev
    · rw [handleClose_noReconnect cfg s ev hg]
      exact ⟨le_refl _, hle⟩
    · rw [handleClose_reconnect cfg s ev hg]
      exact hstep { s with isConnected := false, socket := false } h0 hle
  · intro s tag
    simp only [handleOpen]
    rw [drainLoop_currentReconnectInterval]

/-- C2 witness: the scheduling-step update law instantiated on the example
configuration and a freshly opened client. -/
theorem C2_witness :
    (reconnect cfg1 sOpen).s.currentReconnectInterval =
      min (sOpen.currentReconnectInterval * cfg1.reconnectDecay)
        cfg1.maxReconnectInterval :=
  (C2_backoff cfg1 env0 (by norm_num [cfg1]) (by norm_num [cfg1])
    (by norm_num [cfg1])).1 sOpen (by norm_num [atMaxAttempts, cfg1, sOpen])

/-- C3: a close event schedules a reconnect timer exactly when
`automaticReconnect` holds, the suppression flag is off, `shouldReconnect`
accepts the event, and the attempt counter is below the cap;
`reconnectAttempts` never exceeds the cap; and a close satisfying the first
three conditions at an exhausted counter emits `reconnect_failed` exactly
once and schedules no timer. -/
theorem C3_reconnect_conditions (cfg : Config) (s : ClientState)
    (ev : CloseEvent) :
    ((∃ iv, Action.setTimer iv ∈ (handleClose cfg s ev).acts) ↔
      (cfg.automaticReconnect = true ∧ s.preventReconnect = false ∧
        cfg.shouldReconnect ev = true ∧
        atMaxAttempts s.reconnectAttempts cfg.maxReconnectAttempts = false)) ∧
    (∀ m, cfg.maxReconnectAttempts = some m → s.reconnectAttempts ≤ m →
      (handleClose cfg s ev).s.reconnectAttempts ≤ m) ∧
    (cfg.automaticReconnect = true → s.preventReconnect = false →
      cfg.shouldReconnect ev = true →
      atMaxAttempts s.reconnectAttempts cfg.maxReconnectAttempts = true →
      countEv Event.reconnectFailed (handleClose cfg s ev).evs = 1 ∧
      setTimersOf (handleClose cfg s ev).acts = []) := by
  refine ⟨?_, ?_, ?_⟩
  · cases hg : closeGuard cfg s ev
    · rw [handleClose_noReconnect cfg s ev hg]
      simp only [closeGuard, Bool.and_eq_false_iff, Bool.not_eq_true',
        Bool.not_eq_false] at hg
      constructor
      · rintro ⟨iv, hiv⟩; simp at hiv
      · rintro ⟨h1, h2, h3, h4⟩
        rcases hg with (hg | hg) | hg <;> simp_all
    · rw [handleClose_reconnect cfg s ev hg]
      simp only [closeGuard, Bool.and_eq_true, Bool.not_eq_true'] at hg
      obtain ⟨⟨h1, h2⟩, h3⟩ := hg
      cases hm : atMaxAttempts s.reconnectAttempts cfg.maxReconnectAttempts
      · rw [reconnect_below cfg { s with isConnected := false, socket := false } hm]
        simp [h1, h2, h3]
      · rw [reconnect_atMax cfg { s with isConnected := false, socket := false } hm]
        constructor
        · rintro ⟨iv, hiv⟩
          rcases hrt : s.reconnectTimer with _ | v <;> simp [hrt] at hiv
        · rintro ⟨g1, g2, g3, g4⟩
          exact absurd g4 (by simp)
  · intro m hcap hle
    cases hg : closeGuard cfg s ev
    · rw [handleClose_noReconnect cfg s ev hg]
      exact hle
    · rw [handleClose_reconnect cfg s ev hg]
      cases hm : atMaxAttempts s.reconnectAttempts cfg.maxReconnectAttempts
      · rw [reconnect_below cfg { s with isConnected := false, socket := false } hm]
        simp only [atMaxAttempts, hcap, decide_eq_false_iff_not, not_le] at hm
        exact hm
      · rw [reconnect_atMax cfg { s with isConnected := false, socket := false } hm]
        exact hle
  · intro h1 h2 h3 hm
    have hg : closeGuard cfg s ev = true := by simp [closeGuard, h1, h2, h3]
    rw [handleClose_reconnect cfg s ev hg,
      reconnect_atMax cfg { s with isConnected := false, socket := false } hm]
    constructor
    · simp [countEv]
    · rcases hrt : s.reconnectTimer with _ | v <;> simp [hrt, setTimersOf]

/-- C3 witness: on the example configuration, the sixth closure finds the
exhausted counter and fires `reconnect_failed` once without a timer. -/
theorem C3_witness :
    countEv Event.reconnectFailed
      (handleClose cfg1 (run cfg1 env0 sOpen (closes 5)).s uncleanClose).evs = 1 ∧
    setTimersOf
      (handleClose cfg1 (run cfg1 env0 sOpen (closes 5)).s uncleanClose).acts = [] :=
  (C3_reconnect_conditions cfg1 (run cfg1 env0 sOpen (closes 5)).s
      uncleanClose).2.2
    (by norm_num [cfg1])
    (by norm_num [run, step, handleClose, reconnect, clearReconnectTimer,
      atMaxAttempts, cfg1, env0, sOpen, uncleanClose, closes, List.replicate])
    (by norm_num [cfg1, uncleanClose])
    (by norm_num [run, step, handleClose, reconnect, clearReconnectTimer,
      atMaxAttempts, cfg1, env0, sOpen, uncleanClose, closes, List.replicate])

/-! ### C4 -/

theorem run_cons (cfg : Config) (env : Env) (s : ClientState) (i : Input)
    (l : List Input) :
    run cfg env s (i :: l) =
      { s := (run cfg env (step cfg env s i).s l).s
        evs := (step cfg env s i).evs ++ (run cfg env (step cfg env s i).s l).evs
        acts :=
          (step cfg env s i).acts ++ (run cfg env (step cfg env s i).s l).acts } :=
  rfl

/-- C4: sends issued while not `OPEN` are appended to the queue in call
order (and reach the transport not at all); on the next transport open the
engine resets `reconnectAttempts`, the backoff interval and the
suppression flag, emits `open` first, and then drains the queue through
`send`, so the transport receives the queued payloads in exact insertion
order before any payload of a send issued after the open event. -/
theorem C4_queue_order (cfg : Config) (env : Env) (s : ClientState) (tag : ℕ)
    (hconn : s.isConnected = false)
    (henv : ∀ w, env.sendFails w = false) :
    (∀ ds : List SendData,
      (run cfg env s (ds.map Input.callSend)).s.messageQueue =
        s.messageQueue ++ ds ∧
      (run cfg env s (ds.map Input.callSend)).acts = []) ∧
    ((handleOpen cfg env s tag).s.reconnectAttempts = 0 ∧
      (handleOpen cfg env s tag).s.currentReconnectInterval =
        cfg.reconnectInterval ∧
      (handleOpen cfg env s tag).s.preventReconnect = false) ∧
    (handleOpen cfg env s tag).evs.head? = some (Event.openEv tag) ∧
    (∀ ds : List SendData,
      (run cfg env s (Input.transportOpen tag :: ds.map Input.callSend)).acts =
        s.messageQueue.map (fun d => Action.transportSend (serialize env d)) ++
          ds.map (fun d => Action.transportSend (serialize env d))) := by
  have ho := handleOpen_eq cfg env henv s tag
  refine ⟨?_, ?_, ?_, ?_⟩
  · intro ds
    rw [run_sends_notConnected cfg env ds s hconn]
    exact ⟨rfl, rfl⟩
  · rw [ho]; exact ⟨rfl, rfl, rfl⟩
  · rw [ho]; rfl
  · intro ds
    have hr := run_sends_connected cfg env henv ds
      (handleOpen cfg env s tag).s (by rw [ho])
    rw [run_cons,
      show step cfg env s (Input.transportOpen tag) = handleOpen cfg env s tag
        from rfl,
      hr, ho]

/-- C4 witness: two queued payloads followed by an open and one later send
reach the transport in exactly that order. -/
theorem C4_witness :
    (run cfg1 env0
        { sOpen with isConnected := false, messageQueue := [SendData.str "a"] }
        (Input.transportOpen 7 :: [SendData.str "b"].map Input.callSend)).acts =
      [SendData.str "a"].map
        (fun d => Action.transportSend (serialize env0 d)) ++
      [SendData.str "b"].map
        (fun d => Action.transportSend (serialize env0 d)) :=
  (C4_queue_order cfg1 env0
      { sOpen with isConnected := false, messageQueue := [SendData.str "a"] }
      7 rfl (fun _ => rfl)).2.2.2 [SendData.str "b"]

/-! ### C5: timer discipline -/

/-- Effect of one performed action on whether a host timer is
outstanding (`setTimeout` arms it, `clearTimeout` disarms it). -/
def stepPending : Bool → Action → Bool
  | _, Action.setTimer _ => true
  | _, Action.clearTimer => false
  | p, _ => p

/-- Whether a host timer is outstanding after a list of actions. -/
def pendingAfter (p : Bool) (l : List Action) : Bool := l.foldl stepPending p

/-- `noDoubleTimer p l` holds when the action list `l`, begun while a
timer is outstanding iff `p`, never issues `setTimeout` while a timer is
already outstanding. -/
def noDoubleTimer : Bool → List Action → Bool
  | _, [] => true
  | p, Action.setTimer _ :: rest => !p && noDoubleTimer true rest
  | _, Action.clearTimer :: rest => noDoubleTimer false rest
  | p, _ :: rest => noDoubleTimer p rest

/-- The timer-pending flag seen by a step's actions: a firing timer has
just been consumed by the host scheduler. -/
def firedPending : Input → Bool → Bool
  | Input.timerFire, _ => false
  | _, p => p

/-- `sysOk cfg env p s l = true` when along the whole run of `l` from
state `s` (with `p` recording whether a host timer is outstanding before
the first input) no step ever schedules a second timer while one is still
outstanding. -/
def sysOk (cfg : Config) (env : Env) : Bool → ClientState → List Input → Bool
  | _, _, [] => true
  | p, s, i :: rest =>
    noDoubleTimer (firedPending i p) (step cfg env s i).acts &&
      sysOk cfg env (pendingAfter (firedPending i p) (step cfg env s i).acts)
        (step cfg env s i).s rest

/-- Action lists that touch no timer. -/
def timerFree : List Action → Bool
  | [] => true
  | Action.setTimer _ :: _ => false
  | Action.clearTimer :: _ => false
  | _ :: rest => timerFree rest

theorem timerFree_spec :
    ∀ l : List Action, timerFree l = true →
      ∀ p, noDoubleTimer p l = true ∧ pendingAfter p l = p := by
  intro l
  induction l with
  | nil => intro _ p; exact ⟨rfl, rfl⟩
  | cons a rest ih =>
    intro h p
    cases a with
    | setTimer iv => simp [timerFree] at h
    | clearTimer => simp [timerFree] at h
    | createSocket =>
      simp only [timerFree] at h
      exact ⟨(ih h p).1, (ih h p).2⟩
    | closeSocket c r =>
      simp only [timerFree] at h
      exact ⟨(ih h p).1, (ih h p).2⟩
    | transportSend w =>
      simp only [timerFree] at h
      exact ⟨(ih h p).1, (ih h p).2⟩

theorem timerFree_of_sendOnly :
    ∀ l : List Action, (∀ a ∈ l, ∃ w, a = Action.transportSend w) →
      timerFree l = true := by
  intro l
  induction l with
  | nil => intro _; rfl
  | cons a rest ih =>
    intro h
    obtain ⟨w, hw⟩ := h a (List.mem_cons_self a rest)
    subst hw
    exact ih fun x hx => h x (List.mem_cons_of_mem _ hx)

theorem handleMessage_frame (env : Env) (s : ClientState) (w : Wire) :
    (handleMessage env s w).s = s ∧ (handleMessage env s w).acts = [] := by
  rcases w with str | b
  · rcases hp : env.parse str with _ | v <;> simp [handleMessage, hp]
  · simp [handleMessage]

/-- One engine step never arms a second timer while one is outstanding,
and it leaves a timer-id stored whenever a host timer remains armed
(the invariant carried by `sysOk_all`). -/
theorem step_timer_discipline (cfg : Config) (env : Env) (s : ClientState)
    (i : Input) (p : Bool)
    (hp : p = true → s.reconnectTimer.isSome = true) :
    noDoubleTimer (firedPending i p) (step cfg env s i).acts = true ∧
    (pendingAfter (firedPending i p) (step cfg env s i).acts = true →
      (step cfg env s i).s.reconnectTimer.isSome = true) := by
  cases i with
  | transportOpen tag =>
    have hfree : timerFree (step cfg env s (Input.transportOpen tag)).acts = true :=
      timerFree_of_sendOnly _ (fun a ha => drainLoop_acts_sendOnly env _ _ a ha)
    obtain ⟨hnd, hpa⟩ := timerFree_spec _ hfree p
    refine ⟨hnd, fun hpend => ?_⟩
    simp only [firedPending] at hpend
    rw [hpa] at hpend
    have h2 : (step cfg env s (Input.transportOpen tag)).s.reconnectTimer =
        s.reconnectTimer := drainLoop_reconnectTimer env _ _
    rw [h2]
    exact hp hpend
  | transportMessage w =>
    obtain ⟨hs, ha⟩ := handleMessage_frame env s w
    constructor
    · rw [show (step cfg env s (Input.transportMessage w)).acts =
        (handleMessage env s w).acts from rfl, ha]
      rfl
    · intro hpend
      rw [show (step cfg env s (Input.transportMessage w)).s =
        (handleMessage env s w).s from rfl, hs]
      apply hp
      rw [show (step cfg env s (Input.transportMessage w)).acts =
        (handleMessage env s w).acts from rfl, ha] at hpend
      exact hpend
  | transportError =>
    by_cases hc : s.isConnecting = true
    · simp only [step, handleError, hc, if_pos]
      exact ⟨rfl, fun hpend => hp hpend⟩
    · simp only [step, handleError, if_neg hc]
      exact ⟨rfl, fun hpend => hp hpend⟩
  | callConnect =>
    by_cases hc : (s.isConnected || s.isConnecting) = true
    · simp only [step, connect, hc, if_pos]
      exact ⟨rfl, fun hpend => hp hpend⟩
    · simp only [step, connect, if_neg hc]
      refine ⟨rfl, fun hpend => ?_⟩
      exact hp (by simpa [pendingAfter, stepPending] using hpend)
  | timerFire =>
    by_cases hc : (s.isConnected || s.isConnecting) = true
    · simp only [step, connect, hc, if_pos]
      exact ⟨rfl, fun hpend => absurd hpend (by simp [pendingAfter, firedPending])⟩
    · simp only [step, connect, if_neg hc]
      exact ⟨rfl, fun hpend =>
        absurd hpend (by simp [pendingAfter, firedPending, stepPending])⟩
  | callSend d =>
    have hfree : timerFree (step cfg env s (Input.callSend d)).acts = true :=
      timerFree_of_sendOnly _ (fun a ha => send_acts_sendOnly env s d a ha)
    obtain ⟨hnd, hpa⟩ := timerFree_spec _ hfree p
    refine ⟨hnd, fun hpend => ?_⟩
    simp only [firedPending] at hpend
    rw [hpa] at hpend
    have h2 : (step cfg env s (Input.callSend d)).s.reconnectTimer =
        s.reconnectTimer := send_reconnectTimer env s d
    rw [h2]
    exact hp hpend
  | callDisconnect code reason =>
    rcases hrt : s.reconnectTimer with _ | iv
    · have hpf : p = false := by
        cases hpv : p
        · rfl
        · exact absurd (hp hpv) (by rw [hrt]; simp)
      subst hpf
      by_cases hsk : s.socket = true <;>
        simp [step, disconnect, clearReconnectTimer, hrt, hsk, firedPending,
          noDoubleTimer, pendingAfter, stepPending]
    · by_cases hsk : s.socket = true <;>
        simp [step, disconnect, clearReconnectTimer, hrt, hsk, firedPending,
          noDoubleTimer, pendingAfter, stepPending]
  | transportClose ev =>
    cases hg : closeGuard cfg s ev
    · rw [show step cfg env s (Input.transportClose ev) = handleClose cfg s ev
          from rfl,
        handleClose_noReconnect cfg s ev hg]
      exact ⟨rfl, fun hpend => hp hpend⟩
    · rw [show step cfg env s (Input.transportClose ev) = handleClose cfg s ev
          from rfl,
        handleClose_reconnect cfg s ev hg]
      cases hm : atMaxAttempts s.reconnectAttempts cfg.maxReconnectAttempts
      · rw [reconnect_below cfg { s with isConnected := false, socket := false }
          hm]
        rcases hrt : s.reconnectTimer with _ | iv
        · have hpf : p = false := by
            cases hpv : p
            · rfl
            · exact absurd (hp hpv) (by rw [hrt]; simp)
          subst hpf
          simp [firedPending, noDoubleTimer, pendingAfter, stepPending, hrt]
        · simp [firedPending, noDoubleTimer, pendingAfter, stepPending, hrt]
      · rw [reconnect_atMax cfg { s with isConnected := false, socket := false }
          hm]
        rcases hrt : s.reconnectTimer with _ | iv
        · have hpf : p = false := by
            cases hpv : p
            · rfl
            · exact absurd (hp hpv) (by rw [hrt]; simp)
          subst hpf
          simp [firedPending, noDoubleTimer, pendingAfter, stepPending, hrt]
        · simp [firedPending, noDoubleTimer, pendingAfter, stepPending, hrt]

theorem sysOk_all (cfg : Config) (env : Env) :
    ∀ (l : List Input) (p : Bool) (s : ClientState),
      (p = true → s.reconnectTimer.isSome = true) →
      sysOk cfg env p s l = true := by
  intro l
  induction l with
  | nil => intro p s _; rfl
  | cons i rest ih =>
    intro p s hp
    obtain ⟨h1, h2⟩ := step_timer_discipline cfg env s i p hp
    simp only [sysOk, Bool.and_eq_true]
    exact ⟨h1, ih _ _ h2⟩

/-- C5 counterexample: after one eligible closure a reconnect timer is
outstanding (`reconnectTimer = some 2000`), yet a manual `connect()` call
proceeds to create a fresh socket without performing any `clearTimeout` —
it cancels nothing, contrary to the claim that every such operation
cancels the outstanding timer. -/
theorem C5_counterexample :
    (run cfg1 env0 sOpen (closes 1)).s.reconnectTimer = some 2000 ∧
    (connect (run cfg1 env0 sOpen (closes 1)).s).2.2 = ConnectRes.started ∧
    Action.clearTimer ∉ (connect (run cfg1 env0 sOpen (closes 1)).s).2.1 ∧
    (connect (run cfg1 env0 sOpen (closes 1)).s).1.reconnectTimer =
      some 2000 := by
  refine ⟨?_, ?_, ?_, ?_⟩ <;>
    norm_num [run, step, handleClose, reconnect, connect, clearReconnectTimer,
      atMaxAttempts, cfg1, env0, sOpen, uncleanClose, closes, List.replicate] <;>
    decide

/-- C5 (amended): at most one reconnect timer is ever outstanding — along
any input sequence begun with no outstanding timer, no step issues
`setTimeout` while a timer is still armed; `disconnect()` and re-entry
into the reconnect scheduler cancel any previously outstanding timer
before proceeding; but a manual `connect()` call performs no cancellation
and leaves the stored timer untouched. -/
theorem C5_single_timer (cfg : Config) (env : Env) :
    (∀ (l : List Input) (s : ClientState), sysOk cfg env false s l = true) ∧
    (∀ (s : ClientState) (code : ℕ) (reason : String),
      s.reconnectTimer.isSome = true →
      (disconnect s code reason).2.head? = some Action.clearTimer ∧
      (disconnect s code reason).1.reconnectTimer = none) ∧
    (∀ s : ClientState, s.reconnectTimer.isSome = true →
      (reconnect cfg s).acts.head? = some Action.clearTimer) ∧
    (∀ s : ClientState,
      (connect s).1.reconnectTimer = s.reconnectTimer ∧
      Action.clearTimer ∉ (connect s).2.1) := by
  refine ⟨?_, ?_, ?_, ?_⟩
  · intro l s
    exact sysOk_all cfg env l false s (by simp)
  · intro s code reason h
    rcases hrt : s.reconnectTimer with _ | iv
    · rw [hrt] at h; simp at h
    · by_cases hsk : s.socket = true <;>
        simp [disconnect, clearReconnectTimer, hrt, hsk]
  · intro s h
    rcases hrt : s.reconnectTimer with _ | iv
    · rw [hrt] at h; simp at h
    · cases hm : atMaxAttempts s.reconnectAttempts cfg.maxReconnectAttempts
      · rw [reconnect_below cfg s hm]; simp [hrt]
      · rw [reconnect_atMax cfg s hm]; simp [hrt]
  · intro s
    by_cases hc : (s.isConnected || s.isConnecting) = true <;>
      simp [connect, hc]

/-- C5 witness: the cancellation law of `disconnect` instantiated on the
state reached after one eligible closure, which holds a pending timer. -/
theorem C5_witness :
    (disconnect (run cfg1 env0 sOpen (closes 1)).s 1000 "bye").2.head? =
      some Action.clearTimer ∧
    (disconnect (run cfg1 env0 sOpen (closes 1)).s 1000 "bye").1.reconnectTimer =
      none :=
  (C5_single_timer cfg1 env0).2.1 (run cfg1 env0 sOpen (closes 1)).s 1000 "bye"
    (by norm_num [run, step, handleClose, reconnect, clearReconnectTimer,
      atMaxAttempts, cfg1, env0, sOpen, uncleanClose, closes, List.replicate])

end WSC
